import Mathlib

/-!
Verification development for the `industry-themed-editor` repository.

The development shallowly embeds the logic of
`src/components/ThemedMonacoEditor.tsx`:

* `getMonacoTheme` (source lines 39-59): the theme-to-editor-mode mapping,
  including an exact model of JavaScript IEEE-754 binary64 arithmetic
  (every double is a rational number; each arithmetic step rounds its exact
  result to 53 significant bits, to nearest, ties to even) and of
  `parseInt(s, 16)` (a possible `NaN` is modelled as `none`).  Rationals
  are represented as explicit numerator/denominator pairs (`Frac`) so that
  everything evaluates inside the kernel.
* The controlled/uncontrolled value and dirty-state reconciliation: the
  component's `useState` cells, `useRef` cells and the relevant `useEffect`
  blocks are modelled as an explicit state record with one transition
  function per event.  React runs an effect after a render only when its
  dependency array changed; for the `isDirty` reconciliation effect
  (source lines 171-174, deps `[currentValue, savedValue]`) this is
  modelled by recording the dependency values of the last run in the state
  (`lastCurrentDep`, `lastSavedDep`) and re-running the effect only when
  they changed.  The two prop-synchronisation effects (lines 150-157 and
  159-169) guard themselves through `useRef` previous-value cells, so
  re-running them is a no-op and they can be modelled unconditionally.
-/

/-! ## Exact model of JavaScript number arithmetic (IEEE-754 binary64) -/

/-- An unnormalised fraction `num / den`; every operation below keeps
`den` positive. -/
structure Frac where
  num : ℤ
  den : ℕ
deriving DecidableEq

/-- The rational value of a `Frac`. -/
def Frac.val (x : Frac) : ℚ := (x.num : ℚ) / (x.den : ℚ)

/-- Strict comparison of fractions with positive denominators, by cross
multiplication. -/
def fracLt (x y : Frac) : Prop := x.num * (y.den : ℤ) < y.num * (x.den : ℤ)

instance (x y : Frac) : Decidable (fracLt x y) := by
  unfold fracLt; infer_instance

def fracMul (x y : Frac) : Frac := ⟨x.num * y.num, x.den * y.den⟩

def fracAdd (x y : Frac) : Frac := ⟨x.num * y.den + y.num * x.den, x.den * y.den⟩

/-- Division of a fraction by a positive natural number. -/
def fracDivNat (x : Frac) (n : ℕ) : Frac := ⟨x.num, x.den * n⟩

/-- `⌊log2 n⌋` for `n ≥ 1`, by structural recursion on a fuel argument
(`Nat.log` does not reduce inside the kernel). -/
def log2Fuel : ℕ → ℕ → ℕ
  | 0, _ => 0
  | fuel + 1, n => if n ≤ 1 then 0 else log2Fuel fuel (n / 2) + 1

/-- Minimal `j` with `b ≤ a * 2 ^ j`, for `a ≥ 1` (fuel-based). -/
def clog2Fuel : ℕ → ℕ → ℕ → ℕ
  | 0, _, _ => 0
  | fuel + 1, a, b => if b ≤ a then 0 else clog2Fuel fuel (2 * a) b + 1

/-- `⌊log2 (a / b)⌋` for `a, b ≥ 1`. -/
def floorLog2 (a b : ℕ) : ℤ :=
  if b ≤ a then (log2Fuel a (a / b) : ℤ) else -(clog2Fuel b a b : ℤ)

/-- Round `a / b` (with `b ≥ 1`) to the nearest natural number, ties to
even. -/
def roundNearestEven (a b : ℕ) : ℕ :=
  let q := a / b
  let r := a % b
  if 2 * r < b then q
  else if b < 2 * r then q + 1
  else if q % 2 = 0 then q else q + 1

/-- The IEEE-754 binary64 double nearest to `a / b` for `a, b ≥ 1`:
normalise to a significand in `[2^52, 2^53)`, round it to an integer
(nearest, ties to even) and scale back.  The magnitudes arising in the
luminance computation are all normal, so neither overflow nor subnormals
need to be modelled. -/
def flPos (a b : ℕ) : Frac :=
  let e : ℤ := floorLog2 a b - 52
  let m : ℕ :=
    if 0 ≤ e then roundNearestEven a (b * 2 ^ e.toNat)
    else roundNearestEven (a * 2 ^ (-e).toNat) b
  if 0 ≤ e then ⟨(m * 2 ^ e.toNat : ℕ), 1⟩ else ⟨m, 2 ^ (-e).toNat⟩

/-- Rounding a fraction (with positive denominator) to the nearest
binary64 double.  Rounding is symmetric, so the sign is split off. -/
def fl (x : Frac) : Frac :=
  if x.num = 0 then ⟨0, 1⟩
  else
    let f := flPos x.num.natAbs x.den
    if x.num < 0 then ⟨-f.num, f.den⟩ else f

/-- JavaScript double multiplication: exact product, then rounding. -/
def jsMul (x y : Frac) : Frac := fl (fracMul x y)

/-- JavaScript double addition: exact sum, then rounding. -/
def jsAdd (x y : Frac) : Frac := fl (fracAdd x y)

/-- JavaScript double division by a positive integer (the divisor `255`
is exactly representable): exact quotient, then rounding. -/
def jsDivNat (x : Frac) (n : ℕ) : Frac := fl (fracDivNat x n)

/-- The double denoted by the JavaScript literal `0.299`. -/
def lit299 : Frac := fl ⟨299, 1000⟩

/-- The double denoted by the JavaScript literal `0.587`. -/
def lit587 : Frac := fl ⟨587, 1000⟩

/-- The double denoted by the JavaScript literal `0.114`. -/
def lit114 : Frac := fl ⟨114, 1000⟩

/-- The double computed by the source expression
`(0.299 * r + 0.587 * g + 0.114 * b) / 255` (source line 50), with every
operation rounded exactly as JavaScript evaluates it (left-to-right sums;
`r`, `g`, `b` are integers of magnitude below 2^53, hence exact). -/
def jsLuminance (r g b : ℤ) : Frac :=
  jsDivNat (jsAdd (jsAdd (jsMul lit299 ⟨r, 1⟩) (jsMul lit587 ⟨g, 1⟩)) (jsMul lit114 ⟨b, 1⟩)) 255

/-! ## Model of `parseInt(s, 16)` and of the string operations -/

/-- Whitespace characters skipped by JavaScript `parseInt` (the ASCII
ones; the inputs of interest are slices of a color string). -/
def isJsWS (c : Char) : Bool :=
  c == ' ' || c == '\t' || c == '\n' || c == '\r' || c == '\x0b' || c == '\x0c'

/-- The numeric value of a hexadecimal digit character, `none`
otherwise. -/
def hexDigitVal (c : Char) : Option Nat :=
  if '0' ≤ c ∧ c ≤ '9' then some (c.toNat - '0'.toNat)
  else if 'a' ≤ c ∧ c ≤ 'f' then some (c.toNat - 'a'.toNat + 10)
  else if 'A' ≤ c ∧ c ≤ 'F' then some (c.toNat - 'A'.toNat + 10)
  else none

/-- Accumulate the longest prefix of hexadecimal digits; `none` when no
digit at all was consumed (JavaScript `parseInt` returns `NaN` then). -/
def takeHexVal : List Char → Nat → Bool → Option Nat
  | [], acc, seen => if seen then some acc else none
  | c :: rest, acc, seen =>
    match hexDigitVal c with
    | some d => takeHexVal rest (16 * acc + d) true
    | none => if seen then some acc else none

/-- JavaScript `parseInt(s, 16)` on a list of characters: skip leading
whitespace, read an optional sign, strip an optional `0x`/`0X` prefix,
then parse the longest prefix of hex digits; `none` models the `NaN`
result when no digit is found. -/
def jsParseIntHex (cs : List Char) : Option Int :=
  let cs1 := cs.dropWhile isJsWS
  let signAndRest : Int × List Char :=
    match cs1 with
    | '+' :: rest => (1, rest)
    | '-' :: rest => (-1, rest)
    | _ => (1, cs1)
  let cs2 : List Char :=
    match signAndRest.2 with
    | '0' :: 'x' :: rest => rest
    | '0' :: 'X' :: rest => rest
    | _ => signAndRest.2
  (takeHexVal cs2 0 false).map (fun n => signAndRest.1 * (n : Int))

/-- ASCII model of JavaScript `toLowerCase` on one character. -/
def jsToLowerChar (c : Char) : Char :=
  if 'A' ≤ c ∧ c ≤ 'Z' then Char.ofNat (c.toNat + 32) else c

/-! ## `getMonacoTheme` (source lines 39-59) -/

/-- The `background` value read from `theme.colors?.background`: either
absent (`undefined`), a string, or some non-string value (only its
truthiness could matter, and a non-string never passes the
`typeof bgColor === 'string'` test). -/
inductive JsBgValue where
  | jsString (s : String)
  | jsOther (truthy : Bool)
deriving DecidableEq

/-- Body of `getMonacoTheme` after the `bgColor && typeof bgColor ===
'string'` guard, on the character list of the color string:
`toLowerCase`, the `startsWith('#')` test, `slice(1)`, the length test,
the three `parseInt(hex.slice(..), 16)` calls and the luminance branch
(source lines 43-52).  When a component fails to parse (`NaN`), the
double comparison `luminance < 0.5` is false in JavaScript, so the code
returns `'vs'`; the `try`/`catch` never fires since nothing here
throws. -/
def monacoThemeOfChars (cs : List Char) : String :=
  match cs.map jsToLowerChar with
  | '#' :: hex =>
    if 6 ≤ hex.length then
      match jsParseIntHex (hex.take 2), jsParseIntHex ((hex.drop 2).take 2),
          jsParseIntHex ((hex.drop 4).take 2) with
      | some r, some g, some b =>
        if fracLt (jsLuminance r g b) ⟨1, 2⟩ then "vs-dark" else "vs"
      | _, _, _ => "vs"
    else "vs-dark"
  | _ => "vs-dark"

/-- `getMonacoTheme` (source lines 39-59).  The empty string is falsy in
JavaScript, so it fails the `bgColor &&` guard and yields the default. -/
def getMonacoTheme (bg : Option JsBgValue) : String :=
  match bg with
  | some (.jsString s) => if s = "" then "vs-dark" else monacoThemeOfChars s.data
  | _ => "vs-dark"

example : lit299 = ⟨5386305154335113, 18014398509481984⟩ := by decide
example : lit587 = ⟨2643612981266481 * 2, 9007199254740992⟩ := by decide
example : lit114 = ⟨8214565720323785, 72057594037927936⟩ := by decide
example : (jsLuminance 0 204 68).num * 18014398509481984 =
    9007199254740991 * ((jsLuminance 0 204 68).den : ℤ) := by decide
example : getMonacoTheme (some (.jsString "#00cc44")) = "vs-dark" := by decide
example : getMonacoTheme (some (.jsString "#zzzzzz")) = "vs" := by decide
example : getMonacoTheme (some (.jsString "#ffffff")) = "vs" := by decide
example : getMonacoTheme (some (.jsString "#000000")) = "vs-dark" := by decide
example : getMonacoTheme (some (.jsString "#ABCDEF")) = "vs" := by decide
example : getMonacoTheme (some (.jsString "abc")) = "vs-dark" := by decide
example : getMonacoTheme (some (.jsString "#fff")) = "vs-dark" := by decide
example : getMonacoTheme none = "vs-dark" := by decide

/-! ## The editor value / dirty-state model

Props and state of `ThemedMonacoEditor` (source lines 104-199).  `value`
is the controlled value forwarded to the wrapped editor, `defaultValue`
and `initialValue` the other content sources, `filePath` the identity
key.  All are `string | undefined` in the source, modelled as
`Option String`. -/

structure EditorProps where
  value : Option String
  defaultValue : Option String
  initialValue : Option String
  filePath : Option String
deriving DecidableEq

/-- `isControlled` (source line 127): `controlledValue !== undefined`. -/
def isControlled (p : EditorProps) : Bool := p.value.isSome

/-- `computeInitialValue` (source lines 129-134). -/
def computeInitialValue (initialValue controlledValue defaultValue : Option String) : String :=
  match initialValue with
  | some v => v
  | none =>
    match controlledValue with
    | some v => v
    | none =>
      match defaultValue with
      | some v => v
      | none => ""

/-- The component's state: the `useState` cells `internalValue`,
`savedValue`, `isDirty` (lines 136-138), the `useRef` cells
`prevFilePathRef`, `prevInitialValueRef` (lines 143-144), and the
dependency values `[currentValue, savedValue]` of the `isDirty`
reconciliation `useEffect` (lines 171-174) at its last run —
React re-runs that effect only when this pair changes. -/
structure EditorState where
  internalValue : String
  savedValue : String
  isDirty : Bool
  prevFilePath : Option String
  prevInitialValue : Option String
  lastCurrentDep : String
  lastSavedDep : String
deriving DecidableEq

/-- `currentValue` (source lines 146-148): the controlled value (with
empty-string fallback) when controlled, the internal buffer otherwise. -/
def currentValue (p : EditorProps) (st : EditorState) : String :=
  if isControlled p then p.value.getD "" else st.internalValue

/-- The `useState` initialisers (source lines 136-138) and the initial
`useRef` values (lines 143-144).  The reconciliation-effect dependency
cells start at the first render's values; `mountState` below runs the
effect unconditionally, as React does on mount. -/
def initState (p : EditorProps) : EditorState :=
  let v := computeInitialValue p.initialValue p.value p.defaultValue
  { internalValue := v, savedValue := v, isDirty := false,
    prevFilePath := p.filePath, prevInitialValue := p.initialValue,
    lastCurrentDep := v, lastSavedDep := v }

/-- One run of the `isDirty` reconciliation effect (source lines
171-174): recompute `isDirty` as `currentValue !== savedValue` and record
the dependency values. -/
def runReconcileEffect (p : EditorProps) (st : EditorState) : EditorState :=
  { st with isDirty := currentValue p st != st.savedValue,
            lastCurrentDep := currentValue p st,
            lastSavedDep := st.savedValue }

/-- The reconciliation effect as React schedules it after re-renders: it
runs only when its dependency array `[currentValue, savedValue]` changed
since its last run. -/
def reconcileEffect (p : EditorProps) (st : EditorState) : EditorState :=
  if currentValue p st = st.lastCurrentDep ∧ st.savedValue = st.lastSavedDep then st
  else runReconcileEffect p st

/-- The state after mounting with props `p`: initial render, then all
effects run unconditionally (the two prop-synchronisation effects are
no-ops on mount because the `useRef` cells start at the current props). -/
def mountState (p : EditorProps) : EditorState :=
  runReconcileEffect p (initState p)

/-- `handleChange` (source lines 188-199): a content-change event from
the editor carrying `value` (possibly `undefined`).  `nextValue` is
`value ?? ''`; uncontrolled instances store it; `isDirty` is set to
`nextValue !== savedValue`. -/
def handleChange (p : EditorProps) (st : EditorState) (value : Option String) : EditorState :=
  let nextValue := value.getD ""
  let st1 := if isControlled p then st else { st with internalValue := nextValue }
  { st1 with isDirty := nextValue != st1.savedValue }

/-- A full content-change event: `handleChange`, then the state updates
commit and the reconciliation effect re-runs if its dependencies
changed. -/
def applyChange (p : EditorProps) (st : EditorState) (value : Option String) : EditorState :=
  reconcileEffect p (handleChange p st value)

/-- The `initialValue` synchronisation effect (source lines 150-157):
when uncontrolled and a defined `initialValue` differs from the
remembered one, reset buffer, baseline and dirtiness. -/
def initialValueEffect (p : EditorProps) (st : EditorState) : EditorState :=
  if isControlled p = false ∧ p.initialValue ≠ none ∧ p.initialValue ≠ st.prevInitialValue then
    { st with internalValue := p.initialValue.getD "",
              savedValue := p.initialValue.getD "",
              isDirty := false,
              prevInitialValue := p.initialValue }
  else st

/-- The `filePath` synchronisation effect (source lines 159-169): on an
identity-key change, the baseline becomes `initialValue ?? currentValue`;
uncontrolled instances with a defined `initialValue` also reset the
buffer; dirtiness is cleared and the ref updated. -/
def filePathEffect (p : EditorProps) (st : EditorState) : EditorState :=
  if p.filePath ≠ st.prevFilePath then
    let baseline := p.initialValue.getD (currentValue p st)
    let st1 := if isControlled p = false ∧ p.initialValue ≠ none then
      { st with internalValue := p.initialValue.getD "" } else st
    { st1 with savedValue := baseline, isDirty := false, prevFilePath := p.filePath }
  else st

/-- A re-render with (possibly changed) props `p`: the effects run in
declaration order — `initialValue` sync (150-157), `filePath` sync
(159-169), then the `isDirty` reconciliation if its dependencies
changed. -/
def renderEffects (p : EditorProps) (st : EditorState) : EditorState :=
  reconcileEffect p (filePathEffect p (initialValueEffect p st))

/-- `updateSavedState` (source lines 180-186): acknowledge a save with
the snapshot captured at invocation time. -/
def updateSavedState (nextSavedValue : String) (st : EditorState) : EditorState :=
  { st with savedValue := nextSavedValue, isDirty := false }

/-- Completion of the Ctrl/Cmd+S save command (source lines 228-239).
`latestValue` is the snapshot `editor.getValue()` captured when the save
was invoked.  On success `updateSavedState(latestValue)` runs and the
reconciliation effect re-runs if its dependencies changed; on failure
(`onSave` threw or its promise rejected) the `catch` block only logs —
no state changes, nothing re-renders, and the function returns normally
instead of re-throwing. -/
def saveComplete (p : EditorProps) (result : Except String Unit) (latestValue : String)
    (st : EditorState) : EditorState :=
  match result with
  | .ok _ => reconcileEffect p (updateSavedState latestValue st)
  | .error _ => st

example :
    (applyChange ⟨none, none, some "A", none⟩ (mountState ⟨none, none, some "A", none⟩)
      (some "B")).isDirty = true := by decide
example :
    (saveComplete ⟨none, none, some "A", none⟩ (.ok ()) "B"
      (applyChange ⟨none, none, some "A", none⟩ (mountState ⟨none, none, some "A", none⟩)
        (some "B"))).isDirty = false := by decide

/-! ## Auxiliary definitions for stating claims about `getMonacoTheme` -/

/-- The inputs on which `getMonacoTheme` bails out before parsing color
components (all of them malformed in the sense of the spec): an absent
background, a non-string, the empty string (falsy), a string whose
lowercased form does not start with `'#'`, or one with fewer than six
characters after the `'#'`. -/
def earlyMalformed (bg : Option JsBgValue) : Bool :=
  match bg with
  | some (.jsString s) =>
    s == "" ||
    (match s.data.map jsToLowerChar with
     | '#' :: hex => decide (hex.length < 6)
     | _ => true)
  | _ => true

/-- The 22 hexadecimal digit characters. -/
def hexDigitChars : List Char :=
  ['0', '1', '2', '3', '4', '5', '6', '7',
   '8', '9', 'A', 'B', 'C', 'D', 'E', 'F',
   'a', 'b', 'c', 'd', 'e', 'f']

/-- The byte denoted by two hexadecimal digit characters. -/
def hexByteVal (a b : Char) : ℕ :=
  16 * (hexDigitVal a).getD 0 + (hexDigitVal b).getD 0

/-! ## Helper lemmas -/

/-- In uncontrolled mode a single content-change event always leaves
`isDirty` equal to `currentValue !== savedValue`: `handleChange` itself
establishes the equation (the event value becomes `currentValue`), and
the reconciliation effect either re-establishes it or is skipped. -/
theorem applyChange_isDirty_uncontrolled (p : EditorProps) (st : EditorState)
    (v : Option String) (h : isControlled p = false) :
    (applyChange p st v).isDirty =
      (currentValue p (applyChange p st v) != (applyChange p st v).savedValue) := by
  unfold applyChange reconcileEffect runReconcileEffect handleChange currentValue
  simp only [h, Bool.false_eq_true, if_false]
  split <;> simp_all

/-- `runReconcileEffect` only rewrites `isDirty` and the dependency
cells, so the recomputed flag matches the state it produces. -/
theorem runReconcileEffect_isDirty (p : EditorProps) (st : EditorState) :
    (runReconcileEffect p st).isDirty =
      (currentValue p (runReconcileEffect p st) != (runReconcileEffect p st).savedValue) := rfl

/-! ## Claim C1 -/

/-- Claim C1, counterexample: in Controlled mode (controlled value `"A"`,
never updated by the owner) a content-change event carrying `"B"` sets
`isDirty` to `true` via `handleChange` (which compares the event value,
not `currentValue`, against `savedValue`), and the reconciliation effect
does not re-run because its dependencies `[currentValue, savedValue]` are
unchanged — so after the event `isDirty = true` although
`currentValue === savedValue`, contradicting the claimed invariant. -/
theorem c1_counterexample :
    (applyChange ⟨some "A", none, none, none⟩
        (mountState ⟨some "A", none, none, none⟩) (some "B")).isDirty = true ∧
      currentValue ⟨some "A", none, none, none⟩
          (applyChange ⟨some "A", none, none, none⟩
            (mountState ⟨some "A", none, none, none⟩) (some "B")) =
        (applyChange ⟨some "A", none, none, none⟩
          (mountState ⟨some "A", none, none, none⟩) (some "B")).savedValue :=
  ⟨by decide, by decide⟩

/-- Claim C1 (amended): in Uncontrolled mode, after every event of every
sequence of `onExternalChange` events, `isDirty` equals
`currentValue !== savedValue`; and in either mode, whenever the
reconciliation effect actually runs it leaves `isDirty` equal to that
recomputation.  (In Controlled mode an event that changes neither
`currentValue` nor `savedValue` skips the effect and can leave a stale
`isDirty`, as the counterexample shows.) -/
theorem c1_amended_dirty_invariant :
    (∀ (p : EditorProps) (st : EditorState) (evs : List (Option String)) (v : Option String),
      isControlled p = false →
      ((evs ++ [v]).foldl (applyChange p) st).isDirty =
        (currentValue p ((evs ++ [v]).foldl (applyChange p) st) !=
          ((evs ++ [v]).foldl (applyChange p) st).savedValue)) ∧
    (∀ (p : EditorProps) (st : EditorState),
      (runReconcileEffect p st).isDirty =
        (currentValue p (runReconcileEffect p st) != (runReconcileEffect p st).savedValue)) := by
  constructor
  · intro p st evs v h
    rw [List.foldl_append, List.foldl_cons, List.foldl_nil]
    exact applyChange_isDirty_uncontrolled p _ v h
  · intro p st
    exact runReconcileEffect_isDirty p st

/-- Witness for the amended claim C1 at a concrete uncontrolled run. -/
theorem c1_amended_dirty_invariant_witness :
    isControlled ⟨none, none, some "A", none⟩ = false ∧
    (([some "B"] ++ [some "A"]).foldl (applyChange ⟨none, none, some "A", none⟩)
        (mountState ⟨none, none, some "A", none⟩)).isDirty =
      (currentValue ⟨none, none, some "A", none⟩
          (([some "B"] ++ [some "A"]).foldl (applyChange ⟨none, none, some "A", none⟩)
            (mountState ⟨none, none, some "A", none⟩)) !=
        (([some "B"] ++ [some "A"]).foldl (applyChange ⟨none, none, some "A", none⟩)
          (mountState ⟨none, none, some "A", none⟩)).savedValue) :=
  ⟨by decide,
    c1_amended_dirty_invariant.1 ⟨none, none, some "A", none⟩
      (mountState ⟨none, none, some "A", none⟩) [some "B"] (some "A") (by decide)⟩

/-! ## Claim C2 -/

/-- Claim C2: starting from baseline `"A"` (uncontrolled), editing to
`"B"`, invoking a save that captures snapshot `"B"`, editing to `"C"`
while the save is in flight, and completing the save (which calls
`updateSavedState("B")`): the settled state has `savedValue = "B"` and
`isDirty = true` — `updateSavedState` transiently sets `isDirty` to
`false`, but the reconciliation effect re-runs (its `savedValue`
dependency changed) and recomputes `"C" !== "B"`. -/
theorem c2_stale_snapshot_not_falsely_clean :
    (saveComplete ⟨none, none, some "A", none⟩ (.ok ()) "B"
        (applyChange ⟨none, none, some "A", none⟩
          (applyChange ⟨none, none, some "A", none⟩
            (mountState ⟨none, none, some "A", none⟩) (some "B"))
          (some "C"))).savedValue = "B" ∧
    (saveComplete ⟨none, none, some "A", none⟩ (.ok ()) "B"
        (applyChange ⟨none, none, some "A", none⟩
          (applyChange ⟨none, none, some "A", none⟩
            (mountState ⟨none, none, some "A", none⟩) (some "B"))
          (some "C"))).isDirty = true :=
  ⟨by decide, by decide⟩

/-- After lowercasing, a pair of hexadecimal digit characters parses to
the byte they denote: no leading whitespace or sign is consumed, the
`0x` prefix cannot occur (`'x'` is not a hex digit), and both digits are
consumed.  Proved by enumerating the 22 × 22 digit pairs. -/
theorem jsParseIntHex_hexPair (c1 c2 : Char) (h1 : c1 ∈ hexDigitChars)
    (h2 : c2 ∈ hexDigitChars) :
    jsParseIntHex [jsToLowerChar c1, jsToLowerChar c2] = some (hexByteVal c1 c2 : ℤ) := by
  fin_cases h1 <;> fin_cases h2 <;> decide

/-! ## Claim C3 -/

/-- Claim C3, counterexample: the background `"#zzzzzz"` is malformed
(six non-hex characters after `'#'`), yet `getMonacoTheme` returns the
light mode `'vs'`, not the dark default: `parseInt('zz', 16)` is `NaN`,
the luminance is `NaN`, and `NaN < 0.5` is false, so the conditional
takes its `'vs'` branch. -/
theorem c3_counterexample :
    getMonacoTheme (some (.jsString "#zzzzzz")) = "vs" ∧ "vs" ≠ "vs-dark" :=
  ⟨by decide, by decide⟩

/-- Claim C3 (amended): inputs that fail the shape checks — an absent
background, a non-string, the empty string, a string not starting with
`'#'` after lowercasing, or fewer than six characters after the `'#'` —
all map to the dark default `'vs-dark'`, and the function is total (no
error propagates).  But a `'#'`-string long enough to reach parsing whose
components fail to parse yields `'vs'` (the `NaN` comparison is false),
as the counterexample shows. -/
theorem c3_amended_early_malformed_defaults_dark (bg : Option JsBgValue)
    (h : earlyMalformed bg = true) : getMonacoTheme bg = "vs-dark" := by
  match bg with
  | none => rfl
  | some (.jsOther t) => rfl
  | some (.jsString s) =>
    unfold earlyMalformed at h
    rw [Bool.or_eq_true, beq_iff_eq] at h
    show (if s = "" then "vs-dark" else monacoThemeOfChars s.data) = "vs-dark"
    by_cases hs : s = ""
    · rw [if_pos hs]
    · rw [if_neg hs]
      replace h := h.resolve_left hs
      unfold monacoThemeOfChars
      split
      · next hex heq =>
        rw [heq] at h
        simp only [decide_eq_true_eq] at h
        rw [if_neg (by omega)]
      · rfl

/-- Witness for the amended claim C3 at the concrete malformed input
`"#ff"` (only two characters after the `'#'`). -/
theorem c3_amended_witness :
    earlyMalformed (some (.jsString "#ff")) = true ∧
    getMonacoTheme (some (.jsString "#ff")) = "vs-dark" :=
  ⟨by decide, c3_amended_early_malformed_defaults_dark (some (.jsString "#ff")) (by decide)⟩

/-! ## Claim C6 -/

/-- Claim C6, counterexample: for the background `"#00cc44"` (bytes
R = 0, G = 204, B = 68) the exact luminance `(0.299·0 + 0.587·204 +
0.114·68)/255` equals exactly `0.5`, so the claimed criterion
`luminance < 0.5` is false and demands the light mode — but the code
evaluates the expression in binary64 doubles, obtains
`0.49999999999999994 < 0.5`, and returns the dark mode `'vs-dark'`. -/
theorem c6_counterexample :
    getMonacoTheme (some (.jsString "#00cc44")) = "vs-dark" ∧
    ¬ ((0.299 * (0 : ℚ) + 0.587 * 204 + 0.114 * 68) / 255 < 0.5) :=
  ⟨by decide, by norm_num⟩

/-- Claim C6 (amended): for every background of the form `'#'` followed
by six hexadecimal digits (and anything after them), with byte components
R, G, B, the mode is dark exactly when the IEEE-754 binary64 evaluation
of `(0.299·R + 0.587·G + 0.114·B)/255` is below `0.5`.  This agrees with
the exact-arithmetic criterion of the claim except on inputs where
`299R + 587G + 114B = 127500` exactly and rounding lands just below
`0.5`, as the counterexample shows. -/
theorem c6_amended_luminance_threshold (c1 c2 c3 c4 c5 c6 : Char) (rest : List Char)
    (h1 : c1 ∈ hexDigitChars) (h2 : c2 ∈ hexDigitChars) (h3 : c3 ∈ hexDigitChars)
    (h4 : c4 ∈ hexDigitChars) (h5 : c5 ∈ hexDigitChars) (h6 : c6 ∈ hexDigitChars) :
    getMonacoTheme (some (.jsString
        (String.mk ('#' :: c1 :: c2 :: c3 :: c4 :: c5 :: c6 :: rest)))) =
      (if fracLt (jsLuminance (hexByteVal c1 c2) (hexByteVal c3 c4) (hexByteVal c5 c6)) ⟨1, 2⟩
        then "vs-dark" else "vs") := by
  have hne : String.mk ('#' :: c1 :: c2 :: c3 :: c4 :: c5 :: c6 :: rest) ≠ "" := by
    intro hcontra
    have := congrArg String.data hcontra
    simp at this
  show (if String.mk ('#' :: c1 :: c2 :: c3 :: c4 :: c5 :: c6 :: rest) = "" then "vs-dark"
      else monacoThemeOfChars ('#' :: c1 :: c2 :: c3 :: c4 :: c5 :: c6 :: rest)) = _
  rw [if_neg hne]
  unfold monacoThemeOfChars
  rw [show ('#' :: c1 :: c2 :: c3 :: c4 :: c5 :: c6 :: rest).map jsToLowerChar =
      '#' :: jsToLowerChar c1 :: jsToLowerChar c2 :: jsToLowerChar c3 :: jsToLowerChar c4 ::
        jsToLowerChar c5 :: jsToLowerChar c6 :: rest.map jsToLowerChar from rfl]
  show (if 6 ≤ (jsToLowerChar c1 :: jsToLowerChar c2 :: jsToLowerChar c3 :: jsToLowerChar c4 ::
      jsToLowerChar c5 :: jsToLowerChar c6 :: rest.map jsToLowerChar).length then _ else _) = _
  rw [if_pos (by simp only [List.length_cons, List.length_map]; omega)]
  rw [show (jsToLowerChar c1 :: jsToLowerChar c2 :: jsToLowerChar c3 :: jsToLowerChar c4 ::
      jsToLowerChar c5 :: jsToLowerChar c6 :: rest.map jsToLowerChar).take 2 =
      [jsToLowerChar c1, jsToLowerChar c2] from rfl]
  rw [show ((jsToLowerChar c1 :: jsToLowerChar c2 :: jsToLowerChar c3 :: jsToLowerChar c4 ::
      jsToLowerChar c5 :: jsToLowerChar c6 :: rest.map jsToLowerChar).drop 2).take 2 =
      [jsToLowerChar c3, jsToLowerChar c4] from rfl]
  rw [show ((jsToLowerChar c1 :: jsToLowerChar c2 :: jsToLowerChar c3 :: jsToLowerChar c4 ::
      jsToLowerChar c5 :: jsToLowerChar c6 :: rest.map jsToLowerChar).drop 4).take 2 =
      [jsToLowerChar c5, jsToLowerChar c6] from rfl]
  rw [jsParseIntHex_hexPair c1 c2 h1 h2, jsParseIntHex_hexPair c3 c4 h3 h4,
    jsParseIntHex_hexPair c5 c6 h5 h6]

/-- Witness for the amended claim C6 at the all-white background
`"#ffffff"`. -/
theorem c6_amended_witness :
    ('f' ∈ hexDigitChars) ∧
    getMonacoTheme (some (.jsString (String.mk ('#' :: 'f' :: 'f' :: 'f' :: 'f' :: 'f' :: 'f' :: [])))) =
      (if fracLt (jsLuminance (hexByteVal 'f' 'f') (hexByteVal 'f' 'f') (hexByteVal 'f' 'f')) ⟨1, 2⟩
        then "vs-dark" else "vs") :=
  ⟨by decide,
    c6_amended_luminance_threshold 'f' 'f' 'f' 'f' 'f' 'f' []
      (by decide) (by decide) (by decide) (by decide) (by decide) (by decide)⟩

/-! ## Claim C4 -/

/-- Claim C4, counterexample: with the identity key unchanged
(`filePath` stays `none`), changing the `initialValue` prop from `"A"`
to `"B"` on an uncontrolled editor makes the `initialValue`
synchronisation effect (source lines 150-157) rewrite `savedValue` from
`"A"` to `"B"` — a fourth modifier of `savedValue` beyond construction,
identity-key change and save acknowledgment. -/
theorem c4_counterexample :
    (renderEffects ⟨none, none, some "B", none⟩
        (mountState ⟨none, none, some "A", none⟩)).savedValue = "B" ∧
    (mountState ⟨none, none, some "A", none⟩).savedValue = "A" ∧
    (⟨none, none, some "B", none⟩ : EditorProps).filePath =
      (mountState ⟨none, none, some "A", none⟩).prevFilePath :=
  ⟨by decide, by decide, by decide⟩

/-- Claim C4 (amended): `savedValue` is modified only by construction,
an identity-key change, an explicit save acknowledgment, or — the case
the original claim excluded — an uncontrolled change of the
`initialValue` prop to a new defined value.  Concretely: content-change
events never touch `savedValue`; a re-render with the identity key
unchanged touches `savedValue` only in that last case, i.e. never when
the editor is Controlled, or `initialValue` is undefined (including a
change to undefined), or `initialValue` matches the remembered previous
value; and a failed save never touches `savedValue`. -/
theorem c4_amended_saved_value_frame :
    (∀ (p : EditorProps) (st : EditorState) (v : Option String),
      (applyChange p st v).savedValue = st.savedValue) ∧
    (∀ (p : EditorProps) (st : EditorState),
      p.filePath = st.prevFilePath →
      (isControlled p = true ∨ p.initialValue = none ∨
        p.initialValue = st.prevInitialValue) →
      (renderEffects p st).savedValue = st.savedValue) ∧
    (∀ (p : EditorProps) (msg latest : String) (st : EditorState),
      (saveComplete p (.error msg) latest st).savedValue = st.savedValue) := by
  refine ⟨?_, ?_, ?_⟩
  · intro p st v
    unfold applyChange reconcileEffect runReconcileEffect handleChange
    split <;> split <;> rfl
  · intro p st h1 h2
    have hIVE : initialValueEffect p st = st := by
      unfold initialValueEffect
      rw [if_neg]
      intro hcond
      rcases h2 with h2 | h2 | h2
      · rw [h2] at hcond
        exact Bool.true_eq_false ▸ hcond.1
      · exact hcond.2.1 h2
      · exact hcond.2.2 h2
    have hFPE : filePathEffect p st = st := by
      unfold filePathEffect
      rw [if_neg (fun hc => hc h1)]
    unfold renderEffects
    rw [hIVE, hFPE]
    unfold reconcileEffect runReconcileEffect
    split <;> rfl
  · intro p msg latest st
    rfl

/-- Witness for the amended claim C4: a Controlled re-render that
changes `initialValue` from `"A"` to `"B"` with the identity key
unchanged leaves `savedValue` untouched. -/
theorem c4_amended_saved_value_frame_witness :
    (⟨some "X", none, some "B", none⟩ : EditorProps).filePath =
      (mountState ⟨some "X", none, some "A", none⟩).prevFilePath ∧
    (isControlled ⟨some "X", none, some "B", none⟩ = true ∨
      (⟨some "X", none, some "B", none⟩ : EditorProps).initialValue = none ∨
      (⟨some "X", none, some "B", none⟩ : EditorProps).initialValue =
        (mountState ⟨some "X", none, some "A", none⟩).prevInitialValue) ∧
    (renderEffects ⟨some "X", none, some "B", none⟩
        (mountState ⟨some "X", none, some "A", none⟩)).savedValue =
      (mountState ⟨some "X", none, some "A", none⟩).savedValue :=
  ⟨by decide, by decide,
    c4_amended_saved_value_frame.2.1 ⟨some "X", none, some "B", none⟩
      (mountState ⟨some "X", none, some "A", none⟩) (by decide) (by decide)⟩

/-! ## Claim C5 -/

/-- Claim C5: the starting buffer content is `initialValue` if defined,
else the controlled `value` if it is a string, else `defaultValue` if it
is a string, else the empty string; and both `useState` initialisers
(`internalValue` and `savedValue`) use exactly this resolution. -/
theorem c5_initial_content_resolution :
    (∀ (v : String) (cv dv : Option String), computeInitialValue (some v) cv dv = v) ∧
    (∀ (c : String) (dv : Option String), computeInitialValue none (some c) dv = c) ∧
    (∀ d : String, computeInitialValue none none (some d) = d) ∧
    computeInitialValue none none none = "" ∧
    (∀ p : EditorProps,
      (initState p).internalValue = computeInitialValue p.initialValue p.value p.defaultValue ∧
      (initState p).savedValue = computeInitialValue p.initialValue p.value p.defaultValue) :=
  ⟨fun _ _ _ => rfl, fun _ _ => rfl, fun _ => rfl, rfl, fun _ => ⟨rfl, rfl⟩⟩

/-! ## Claim C7 -/

/-- Claim C7: in Controlled mode `currentValue` is read from the
controlled prop (with empty-string fallback), never from internal state,
so a content-change event cannot alter what `getCurrentValue` returns. -/
theorem c7_controlled_never_self_mutates (p : EditorProps) (st : EditorState)
    (v : Option String) (h : isControlled p = true) :
    currentValue p (applyChange p st v) = currentValue p st ∧
    currentValue p st = p.value.getD "" := by
  unfold currentValue
  rw [h]
  exact ⟨by simp, by simp⟩

/-- Witness for claim C7 at a concrete controlled instance. -/
theorem c7_controlled_never_self_mutates_witness :
    isControlled ⟨some "A", none, none, none⟩ = true ∧
    (currentValue ⟨some "A", none, none, none⟩
        (applyChange ⟨some "A", none, none, none⟩
          (mountState ⟨some "A", none, none, none⟩) (some "B")) =
      currentValue ⟨some "A", none, none, none⟩ (mountState ⟨some "A", none, none, none⟩) ∧
    currentValue ⟨some "A", none, none, none⟩ (mountState ⟨some "A", none, none, none⟩) =
      (⟨some "A", none, none, none⟩ : EditorProps).value.getD "") :=
  ⟨by decide,
    c7_controlled_never_self_mutates ⟨some "A", none, none, none⟩
      (mountState ⟨some "A", none, none, none⟩) (some "B") (by decide)⟩

/-- The reconciliation effect never changes `savedValue`. -/
theorem reconcileEffect_savedValue (p : EditorProps) (x : EditorState) :
    (reconcileEffect p x).savedValue = x.savedValue := by
  unfold reconcileEffect runReconcileEffect
  split <;> rfl

/-- The reconciliation effect never changes the internal buffer. -/
theorem reconcileEffect_internalValue (p : EditorProps) (x : EditorState) :
    (reconcileEffect p x).internalValue = x.internalValue := by
  unfold reconcileEffect runReconcileEffect
  split <;> rfl

/-- A clean state whose buffer matches its baseline stays clean through
the reconciliation effect, whether or not the effect re-runs. -/
theorem reconcileEffect_isDirty_false (p : EditorProps) (x : EditorState)
    (h : currentValue p x = x.savedValue) (h2 : x.isDirty = false) :
    (reconcileEffect p x).isDirty = false := by
  unfold reconcileEffect runReconcileEffect
  split
  · exact h2
  · show (currentValue p x != x.savedValue) = false
    rw [h, bne_self_eq_false]

/-- Without a defined `initialValue`, the `initialValue` synchronisation
effect is a no-op. -/
theorem initialValueEffect_none (p : EditorProps) (st : EditorState)
    (h : p.initialValue = none) : initialValueEffect p st = st := by
  unfold initialValueEffect
  rw [if_neg (fun hc => hc.2.1 h)]

/-- The `initialValue` synchronisation effect never changes the
remembered previous `filePath`. -/
theorem initialValueEffect_prevFilePath (p : EditorProps) (st : EditorState) :
    (initialValueEffect p st).prevFilePath = st.prevFilePath := by
  unfold initialValueEffect
  split <;> rfl

/-! ## Claim C8 -/

/-- Claim C8, counterexample: a controlled editor (`value = "X"`)
constructed with `initialValue = "A"`, whose identity key changes from
`none` to `"f2"` while `initialValue` becomes `"Y"`: the effect sets
`savedValue` to `"Y"` and `isDirty` to `false`, but the reconciliation
effect re-runs (its `savedValue` dependency changed) and recomputes
`"X" !== "Y"`, so the settled state has `isDirty = true` — the claim's
unconditional `isDirty = false` fails. -/
theorem c8_counterexample :
    (⟨some "X", none, some "Y", some "f2"⟩ : EditorProps).filePath ≠
      (mountState ⟨some "X", none, some "A", none⟩).prevFilePath ∧
    (renderEffects ⟨some "X", none, some "Y", some "f2"⟩
        (mountState ⟨some "X", none, some "A", none⟩)).isDirty = true :=
  ⟨by decide, by decide⟩

/-- Claim C8 (amended): after an identity-key change, `savedValue`
equals the supplied `initialValue` if there is one, else the current
buffer content; if Uncontrolled with a supplied `initialValue`, the
buffer becomes that `initialValue`; and `isDirty` settles to `false`
whenever the editor is Uncontrolled or no `initialValue` is supplied —
but a Controlled editor with a supplied `initialValue` different from
its controlled value settles dirty, as the counterexample shows. -/
theorem c8_amended_identity_change (p : EditorProps) (st : EditorState)
    (h : p.filePath ≠ st.prevFilePath) :
    (renderEffects p st).savedValue = p.initialValue.getD (currentValue p st) ∧
    (isControlled p = false → ∀ iv, p.initialValue = some iv →
      currentValue p (renderEffects p st) = iv) ∧
    (isControlled p = false → (renderEffects p st).isDirty = false) ∧
    (p.initialValue = none → (renderEffects p st).isDirty = false) := by
  have hcond : p.filePath ≠ (initialValueEffect p st).prevFilePath := by
    rw [initialValueEffect_prevFilePath]
    exact h
  refine ⟨?_, ?_, ?_, ?_⟩
  · rw [show renderEffects p st =
        reconcileEffect p (filePathEffect p (initialValueEffect p st)) from rfl,
      reconcileEffect_savedValue]
    unfold filePathEffect
    rw [if_pos hcond]
    show p.initialValue.getD (currentValue p (initialValueEffect p st)) =
      p.initialValue.getD (currentValue p st)
    cases hiv : p.initialValue with
    | some v => rfl
    | none => rw [initialValueEffect_none p st hiv]
  · intro hc iv hiv
    rw [show renderEffects p st =
        reconcileEffect p (filePathEffect p (initialValueEffect p st)) from rfl]
    unfold currentValue
    simp only [hc, Bool.false_eq_true, if_false]
    rw [reconcileEffect_internalValue]
    unfold filePathEffect
    rw [if_pos hcond, if_pos ⟨hc, by rw [hiv]; exact Option.some_ne_none iv⟩]
    show p.initialValue.getD "" = iv
    rw [hiv]
    rfl
  · intro hc
    rw [show renderEffects p st =
        reconcileEffect p (filePathEffect p (initialValueEffect p st)) from rfl]
    apply reconcileEffect_isDirty_false
    · unfold currentValue
      simp only [hc, Bool.false_eq_true, if_false]
      unfold filePathEffect
      rw [if_pos hcond]
      cases hiv : p.initialValue with
      | some v =>
        rw [if_pos ⟨hc, Option.some_ne_none v⟩]
        rfl
      | none =>
        rw [if_neg (fun hcc => hcc.2 rfl), initialValueEffect_none p st hiv]
        show st.internalValue = currentValue p st
        unfold currentValue
        simp only [hc, Bool.false_eq_true, if_false]
    · unfold filePathEffect
      rw [if_pos hcond]
  · intro hiv
    rw [show renderEffects p st =
        reconcileEffect p (filePathEffect p (initialValueEffect p st)) from rfl,
      initialValueEffect_none p st hiv]
    apply reconcileEffect_isDirty_false
    · unfold filePathEffect
      rw [if_pos h, if_neg (fun hcc => hcc.2 hiv)]
      rw [hiv]
      show currentValue p _ = currentValue p st
      unfold currentValue
      by_cases hb : isControlled p = true
      · simp only [hb, if_true]
      · simp only [eq_false_of_ne_true hb, Bool.false_eq_true, if_false]
    · unfold filePathEffect
      rw [if_pos h]

/-- Witness for the amended claim C8: the spec's own scenario —
uncontrolled, identity `none → "f2"` with new `initialValue = "C"`. -/
theorem c8_amended_identity_change_witness :
    (⟨none, none, some "C", some "f2"⟩ : EditorProps).filePath ≠
      (applyChange ⟨none, none, some "A", none⟩
        (mountState ⟨none, none, some "A", none⟩) (some "B")).prevFilePath ∧
    ((renderEffects ⟨none, none, some "C", some "f2"⟩
        (applyChange ⟨none, none, some "A", none⟩
          (mountState ⟨none, none, some "A", none⟩) (some "B"))).savedValue =
      (⟨none, none, some "C", some "f2"⟩ : EditorProps).initialValue.getD
        (currentValue ⟨none, none, some "C", some "f2"⟩
          (applyChange ⟨none, none, some "A", none⟩
            (mountState ⟨none, none, some "A", none⟩) (some "B"))) ∧
    (isControlled ⟨none, none, some "C", some "f2"⟩ = false →
      ∀ iv, (⟨none, none, some "C", some "f2"⟩ : EditorProps).initialValue = some iv →
      currentValue ⟨none, none, some "C", some "f2"⟩
          (renderEffects ⟨none, none, some "C", some "f2"⟩
            (applyChange ⟨none, none, some "A", none⟩
              (mountState ⟨none, none, some "A", none⟩) (some "B"))) = iv) ∧
    (isControlled ⟨none, none, some "C", some "f2"⟩ = false →
      (renderEffects ⟨none, none, some "C", some "f2"⟩
        (applyChange ⟨none, none, some "A", none⟩
          (mountState ⟨none, none, some "A", none⟩) (some "B"))).isDirty = false) ∧
    ((⟨none, none, some "C", some "f2"⟩ : EditorProps).initialValue = none →
      (renderEffects ⟨none, none, some "C", some "f2"⟩
        (applyChange ⟨none, none, some "A", none⟩
          (mountState ⟨none, none, some "A", none⟩) (some "B"))).isDirty = false)) :=
  ⟨by decide,
    c8_amended_identity_change ⟨none, none, some "C", some "f2"⟩
      (applyChange ⟨none, none, some "A", none⟩
        (mountState ⟨none, none, some "A", none⟩) (some "B")) (by decide)⟩

/-! ## Claim C9 -/

/-- Claim C9: when the save handler throws or its promise rejects, the
`catch` branch only logs; `markSaved` (`updateSavedState`) is not
invoked, the state — `savedValue`, the buffer, `isDirty` — is exactly
unchanged, and the model function returns normally (the failure is
swallowed, not re-thrown into the editor widget). -/
theorem c9_save_failure_preserves_state (p : EditorProps) (msg latestValue : String)
    (st : EditorState) : saveComplete p (.error msg) latestValue st = st := rfl

/-! ## Claim C10 -/

/-- Claim C10: in Uncontrolled mode a content-change event carrying
`undefined` is coerced by `value ?? ''` to the empty string: afterwards
the buffer is `""`, `savedValue` is untouched, and `isDirty` is
`"" !== savedValue`; the handler is total on `undefined` input. -/
theorem c10_undefined_change_coerced (p : EditorProps) (st : EditorState)
    (h : isControlled p = false) :
    currentValue p (applyChange p st none) = "" ∧
    (applyChange p st none).savedValue = st.savedValue ∧
    (applyChange p st none).isDirty = ("" != st.savedValue) := by
  unfold applyChange reconcileEffect runReconcileEffect handleChange currentValue
  simp only [h, Bool.false_eq_true, if_false, Option.getD_none]
  refine ⟨?_, ?_, ?_⟩ <;> (split <;> simp_all)

/-- Witness for claim C10 at a concrete uncontrolled editor. -/
theorem c10_undefined_change_coerced_witness :
    isControlled ⟨none, none, some "A", none⟩ = false ∧
    (currentValue ⟨none, none, some "A", none⟩
        (applyChange ⟨none, none, some "A", none⟩
          (mountState ⟨none, none, some "A", none⟩) none) = "" ∧
    (applyChange ⟨none, none, some "A", none⟩
        (mountState ⟨none, none, some "A", none⟩) none).savedValue =
      (mountState ⟨none, none, some "A", none⟩).savedValue ∧
    (applyChange ⟨none, none, some "A", none⟩
        (mountState ⟨none, none, some "A", none⟩) none).isDirty =
      ("" != (mountState ⟨none, none, some "A", none⟩).savedValue)) :=
  ⟨by decide,
    c10_undefined_change_coerced ⟨none, none, some "A", none⟩
      (mountState ⟨none, none, some "A", none⟩) (by decide)⟩
